import Mathlib

/-!
A shallow embedding of the `batuta` APK transformation pipelines
(`src/batuta/core/{patcher,decompiler,merger,reflutter}.py` together with the
helpers in `src/batuta/utils/{apk,deps,process}.py` and
`src/batuta/core/analyzer.py`).

Modelling conventions:
* Filesystem facts that the Python code queries (existence, file-ness,
  extension, the first four bytes of a file, directory listings) are recorded
  in explicit environment records; each record field corresponds to one
  concrete query the source code makes.
* External subprocess invocations are modelled by oracles in the environment
  (`…Runs : Bool` — does `run_tool` with `check=True` return without raising;
  `…Produces : Bool` — does the declared output artifact exist afterwards),
  and every invocation or tool resolution is logged in an event trace, so
  that "before any external tool is invoked" claims are statements about the
  trace.
* Python exceptions become an explicit error type `BErr`; re-raising
  `SomeError(f"...: {e}") from e` becomes the `BErr.wrap` constructor, which
  keeps the wrapping class, the message site, and the inner error.
* `Path.home()` is abstracted to the literal `"~"` and the anonymous
  temporary directory of one pipeline run to the literal `"<tmp>"` (or
  `"<signtmp>"` for the nested signing staging area); their actual names are
  irrelevant to every property below.
-/

namespace Batuta

/-- Structured stand-ins for the distinct error-message shapes of the source.
Each constructor corresponds to one `raise SomeError(...)` site whose message
does not embed another exception. -/
inductive Reason where
  | apkNotFound (p : String)
  | notAFile (p : String)
  | badExtension (p : String)
  | headerReadFailed
  | tooSmall
  | headerMismatch (got : List Nat)
  | dirNotFound (p : String)
  | missingMarker (p : String)
  | artifactMissing (p : String)
  | notAZip
  | zipReadFailed
  | notFlutter (detected : List String)
  | atLeastOne
  | bothDecompilersFailed
  | splitDirNotFound (p : String)
  | splitNotADirectory (p : String)
  | noApkFiles (p : String)
  | apkeditorUnresolvable
  | rootRequired
  | emptyDump
  deriving Repr, DecidableEq

/-- The exception classes of `src/batuta/exceptions.py` that the modelled
code can raise (plus the stage-specific classes referenced there). -/
inductive ErrCls where
  | decompile
  | build
  | align
  | sign
  | merge
  | analysis
  | flutter
  | reflutter
  | dartDump
  deriving Repr, DecidableEq

/-- Errors raised by the embedded code.  `wrap cls site inner` models
`raise Cls(f"<site>: {inner}") from inner`. -/
inductive BErr where
  | toolNotFound (tool : String)
  | processError (cmd : List String)
  | err (cls : ErrCls) (r : Reason)
  | wrap (cls : ErrCls) (site : String) (inner : BErr)
  deriving Repr, DecidableEq

/-- The exception class at the top of an error (what `except SomeError`
would match on). -/
def BErr.cls : BErr → Option ErrCls
  | .err c _ => some c
  | .wrap c _ _ => some c
  | _ => none

/-- Whether the error, possibly through wrapping, reports that a tool claimed
success but its declared output artifact was absent. -/
def BErr.hasArtifactMissing : BErr → Bool
  | .err _ (.artifactMissing _) => true
  | .wrap _ _ inner => inner.hasArtifactMissing
  | _ => false

/-- One observable interaction with the outside world: resolving an external
tool (`shutil.which` / SDK lookup / APKEditor resolution), launching a
subprocess, or blocking on the interactive `input()` prompt. -/
inductive Event where
  | resolve (tool : String)
  | run (cmd : List String)
  | prompt
  deriving Repr, DecidableEq

/-- Is the event a subprocess invocation? -/
def Event.isRun : Event → Bool
  | .run _ => true
  | _ => false

/-- Python `str.startswith`, computed on the character list. -/
def strStartsWith (s pre : String) : Bool := pre.data.isPrefixOf s.data

/-- Python `str.endswith`, computed on the character list. -/
def strEndsWith (s post : String) : Bool := post.data.isSuffixOf s.data

/-- Whitespace for Python `str.strip()` (the characters relevant to tool
output). -/
def isSpaceChar (c : Char) : Bool :=
  c = ' ' ∨ c = '\t' ∨ c = '\n' ∨ c = '\r'

/-- Python `str.strip()`: drop leading and trailing whitespace. -/
def strip (s : String) : String :=
  ⟨((s.data.dropWhile isSpaceChar).reverse.dropWhile isSpaceChar).reverse⟩

/-- The four-byte ZIP local-file-header signature `PK\x03\x04`
(`ZIP_FILE_HEADER` in `utils/apk.py` and `APKDecompiler.ZIP_FILE_HEADER`). -/
def ZIP_FILE_HEADER : List Nat := [0x50, 0x4B, 0x03, 0x04]

/-- The filesystem facts about one candidate APK path that the validation
code queries: `exists()`, `is_file()`, `suffix.lower() == ".apk"`, whether
opening/reading the first four bytes succeeds, and those bytes (fewer than
four when the file is shorter). -/
structure ApkFileInfo where
  pathExists : Bool
  isFile : Bool
  suffixLowerIsApk : Bool
  readOk : Bool
  header : List Nat
  deriving Repr, DecidableEq

/-- Embeds `utils/apk.py:validate_apk_path`.  `mk` plays the role of the
`error_cls` keyword argument: it decides which exception class carries each
reason. -/
def validate_apk_path (f : ApkFileInfo) (path : String)
    (require_zip_header : Bool) (mk : Reason → BErr) : Except BErr Unit :=
  if ¬ f.pathExists then .error (mk (.apkNotFound path))
  else if ¬ f.isFile then .error (mk (.notAFile path))
  else if ¬ f.suffixLowerIsApk then .error (mk (.badExtension path))
  else if require_zip_header then
    if ¬ f.readOk then .error (mk .headerReadFailed)
    else if f.header.length < ZIP_FILE_HEADER.length then .error (mk .tooSmall)
    else if f.header ≠ ZIP_FILE_HEADER then .error (mk (.headerMismatch f.header))
    else .ok ()
  else .ok ()

namespace APKDecompiler

/-- Embeds `APKDecompiler.validate` (`core/decompiler.py:32-62`): existence,
file-ness, `.apk` extension, then always the four-byte header check. -/
def validate (f : ApkFileInfo) (path : String) : Except BErr Unit :=
  if ¬ f.pathExists then .error (.err .decompile (.apkNotFound path))
  else if ¬ f.isFile then .error (.err .decompile (.notAFile path))
  else if ¬ f.suffixLowerIsApk then .error (.err .decompile (.badExtension path))
  else if ¬ f.readOk then .error (.err .decompile .headerReadFailed)
  else if f.header.length < ZIP_FILE_HEADER.length then
    .error (.err .decompile .tooSmall)
  else if f.header ≠ ZIP_FILE_HEADER then
    .error (.err .decompile (.headerMismatch f.header))
  else .ok ()

end APKDecompiler

/-- Result of `ZipFile(apk_path, "r")` + `namelist()` inside
`FrameworkDetector.detect`: the entry list on success, or the
`BadZipFile` / `OSError` failure modes. -/
inductive ZipOpen where
  | ok (namelist : List String)
  | badZip
  | ioError
  deriving Repr, DecidableEq

namespace FrameworkDetector

/-- Embeds `FrameworkDetector.FRAMEWORK_SIGNATURES` (`core/analyzer.py:13-42`),
in the source's (insertion) order. -/
def FRAMEWORK_SIGNATURES : List (String × List String) :=
  [ ("Flutter",
      [ "lib/arm64-v8a/libflutter.so"
      , "lib/armeabi-v7a/libflutter.so"
      , "lib/x86_64/libflutter.so"
      , "assets/flutter_assets/" ])
  , ("React Native",
      [ "lib/arm64-v8a/libreactnativejni.so"
      , "lib/armeabi-v7a/libreactnativejni.so"
      , "lib/x86/libreactnativejni.so"
      , "lib/x86_64/libreactnativejni.so"
      , "assets/index.android.bundle" ])
  , ("Xamarin",
      [ "assemblies/Xamarin.Android.dll"
      , "assemblies/Mono.Android.dll"
      , "lib/arm64-v8a/libmonosgen-2.0.so"
      , "lib/armeabi-v7a/libmonosgen-2.0.so" ])
  , ("Cordova",
      [ "assets/www/cordova.js"
      , "assets/www/cordova_plugins.js" ])
  , ("Unity",
      [ "lib/arm64-v8a/libunity.so"
      , "lib/armeabi-v7a/libunity.so"
      , "assets/bin/Data/" ]) ]

/-- Ordered insertion for the `sorted(...)` calls of the detector. -/
def insertStr (s : String) : List String → List String
  | [] => [s]
  | t :: ts => if s ≤ t then s :: t :: ts else t :: insertStr s ts

/-- Python `sorted` on a list of strings. -/
def sortStrs (l : List String) : List String := l.foldr insertStr []

/-- One detected framework: its name and the matched signature evidence
(`FrameworkMatch` in `models/analyze.py`). -/
structure FrameworkMatch where
  name : String
  matchedFiles : List String
  deriving Repr, DecidableEq

/-- Ordered insertion by framework name for the detector's final
`sorted(detected, key=lambda m: m.name)`. -/
def insertMatch (m : FrameworkMatch) :
    List FrameworkMatch → List FrameworkMatch
  | [] => [m]
  | t :: ts => if m.name ≤ t.name then m :: t :: ts else t :: insertMatch m ts

/-- Sorting by framework name (framework names are pairwise distinct, so
stability is irrelevant). -/
def sortMatches (l : List FrameworkMatch) : List FrameworkMatch :=
  l.foldr insertMatch []

/-- Embeds `FrameworkDetector._detect_frameworks`: a signature ending in `/` is a
directory signature matched when some entry starts with it; any other
signature must be an exact member of the namelist.  A framework with
non-empty evidence is reported with `sorted(set(matched_files))`, and the
detected list is sorted by name. -/
def detectFrameworks (namelist : List String) : List FrameworkMatch :=
  let detected := FRAMEWORK_SIGNATURES.filterMap fun fw =>
    let matched := fw.2.filter fun sig =>
      if strEndsWith sig "/" then
        namelist.any (fun entry => strStartsWith entry sig)
      else namelist.contains sig
    if matched.isEmpty then none
    else some ⟨fw.1, sortStrs matched.eraseDups⟩
  sortMatches detected

/-- Embeds `FrameworkResult` (`models/analyze.py`), restricted to the fields the
modelled code reads. -/
structure FrameworkResult where
  detectedFrameworks : List FrameworkMatch
  nativeLibraries : List String
  deriving Repr, DecidableEq

/-- Embeds `FrameworkDetector._collect_native_libs`. -/
def collectNativeLibs (namelist : List String) : List String :=
  sortStrs (namelist.filter fun entry => strEndsWith entry ".so")

/-- Embeds `FrameworkDetector._validate_apk` (`core/analyzer.py:52-67`): existence,
file-ness and extension only — no header read. -/
def validateApk (f : ApkFileInfo) (path : String) : Except BErr Unit :=
  if ¬ f.pathExists then .error (.err .analysis (.apkNotFound path))
  else if ¬ f.isFile then .error (.err .analysis (.notAFile path))
  else if ¬ f.suffixLowerIsApk then .error (.err .analysis (.badExtension path))
  else .ok ()

/-- Embeds `FrameworkDetector.detect` (`core/analyzer.py:118-149`). -/
def detect (f : ApkFileInfo) (z : ZipOpen) (path : String)
    (includeNativeLibs : Bool) : Except BErr FrameworkResult := do
  (validateApk f path).bind fun _ =>
    match z with
    | .badZip => .error (.err .analysis .notAZip)
    | .ioError => .error (.err .analysis .zipReadFailed)
    | .ok namelist =>
        .ok ⟨detectFrameworks namelist,
             if includeNativeLibs then collectNativeLibs namelist else []⟩

end FrameworkDetector

namespace ReflutterPatcher

/-- Embeds `ReflutterPatcher.validate_flutter` (`core/reflutter.py:33-50`):
`validate_apk_path` is called with only `error_cls=FlutterError`, so
`require_zip_header` keeps its default `False`; then framework detection
must report Flutter. -/
def validate_flutter (f : ApkFileInfo) (z : ZipOpen) (path : String) :
    Except BErr Unit :=
  (validate_apk_path f path false (.err .flutter ·)).bind fun _ =>
    (FrameworkDetector.detect f z path false).bind fun result =>
      if result.detectedFrameworks.any (fun fw => fw.name = "Flutter") then
        .ok ()
      else
        .error (.err .flutter
          (.notFlutter (result.detectedFrameworks.map (·.name))))

end ReflutterPatcher

deriving instance DecidableEq for Except

/-- Result of one stage method: the artifact path it returns (or the error
it raises) and the external events it caused. -/
structure StageOut where
  result : Except BErr String
  events : List Event
  deriving Repr, DecidableEq

namespace APKPatcher

/-- Embeds `APKPatcher.DEFAULT_KEYSTORE_DIR / DEFAULT_KEYSTORE_NAME`
(`Path.home()` abstracted to `~`). -/
def debugKeystorePath : String := "~/.batuta/debug.keystore"

/-- Embeds `APKPatcher.DEFAULT_KEY_ALIAS`. -/
def DEFAULT_KEY_ALIAS : String := "androiddebugkey"

/-- Embeds `APKPatcher.DEFAULT_STORE_PASS` (= `DEFAULT_KEY_PASS`). -/
def DEFAULT_STORE_PASS : String := "android"

/-- Environment of one `APKPatcher` run: the filesystem facts it queries and
the behavior of each external tool it may invoke.  `…Runs` says whether the
`run_tool(..., check=True)` call returns without raising, `…Produces`
whether the declared output artifact exists afterwards, and the `…Content`
functions give the bytes each tool writes (as a function of its input
bytes).  The multi-step Android-SDK lookup of `get_zipalign`/`get_apksigner`
is collapsed into a single resolvability bit per tool. -/
structure PatchEnv where
  apktoolDirIsDir : Bool
  apktoolYmlIsFile : Bool
  apktoolAvailable : Bool
  buildRuns : Bool
  buildProduces : Bool
  buildContent : List Nat
  zipalignResolvable : Bool
  zipalignPath : String
  alignRuns : Bool
  alignProduces : Bool
  alignContent : List Nat → List Nat
  apksignerResolvable : Bool
  apksignerPath : String
  signRuns : Bool
  signProduces : Bool
  signContent : List Nat → List Nat
  verifyLaunches : Bool
  verifyExitZero : Bool
  keytoolAvailable : Bool
  keytoolRuns : Bool
  keytoolProduces : Bool
  debugKeystoreIsFile : Bool

/-- Embeds `apktool b <dir> -o <out>` (`core/patcher.py:71`). -/
def buildCmd (dir out : String) : List String :=
  ["apktool", "b", dir, "-o", out]

/-- Embeds `zipalign -P 16 4 <in> <out>` (`core/patcher.py:101`). -/
def alignCmd (zipalign input out : String) : List String :=
  [zipalign, "-P", "16", "4", input, out]

/-- The `apksigner sign` command vector (`core/patcher.py:140-154`). -/
def signCmd (apksigner keystore keyAlias ksPass keyPass out input : String) :
    List String :=
  [apksigner, "sign", "--ks", keystore, "--ks-key-alias", keyAlias,
   "--ks-pass", "pass:" ++ ksPass, "--key-pass", "pass:" ++ keyPass,
   "--out", out, input]

/-- Embeds `apksigner verify --verbose <apk>` (`core/patcher.py:180`). -/
def verifyCmd (apksigner apk : String) : List String :=
  [apksigner, "verify", "--verbose", apk]

/-- The `keytool -genkey` command vector (`core/patcher.py:207-227`). -/
def keytoolCmd : List String :=
  ["keytool", "-genkey", "-v", "-keystore", debugKeystorePath,
   "-alias", DEFAULT_KEY_ALIAS, "-keyalg", "RSA", "-keysize", "2048",
   "-validity", "10000", "-storepass", DEFAULT_STORE_PASS,
   "-keypass", DEFAULT_STORE_PASS, "-dname",
   "CN=Debug, OU=Debug, O=Debug, L=Debug, ST=Debug, C=US"]

/-- Embeds `APKPatcher.validate` (`core/patcher.py:41-55`). -/
def validate (env : PatchEnv) (dir : String) : Except BErr Unit :=
  if ¬ env.apktoolDirIsDir then .error (.err .build (.dirNotFound dir))
  else if ¬ env.apktoolYmlIsFile then .error (.err .build (.missingMarker dir))
  else .ok ()

/-- Embeds `APKPatcher.build` (`core/patcher.py:57-81`): `require("apktool")`, run
the builder, then assert the output file exists. -/
def build (env : PatchEnv) (dir out : String) : StageOut :=
  if ¬ env.apktoolAvailable then
    ⟨.error (.toolNotFound "apktool"), [.resolve "apktool"]⟩
  else if ¬ env.buildRuns then
    ⟨.error (.wrap .build "Failed to build APK" (.processError (buildCmd dir out))),
     [.resolve "apktool", .run (buildCmd dir out)]⟩
  else if ¬ env.buildProduces then
    ⟨.error (.err .build (.artifactMissing out)),
     [.resolve "apktool", .run (buildCmd dir out)]⟩
  else ⟨.ok out, [.resolve "apktool", .run (buildCmd dir out)]⟩

/-- Embeds `APKPatcher.align` (`core/patcher.py:83-111`): resolve `zipalign` from
the SDK, run it, then assert the output file exists. -/
def align (env : PatchEnv) (input out : String) : StageOut :=
  if ¬ env.zipalignResolvable then
    ⟨.error (.toolNotFound "zipalign"), [.resolve "zipalign"]⟩
  else
    let cmd := alignCmd env.zipalignPath input out
    if ¬ env.alignRuns then
      ⟨.error (.wrap .align "Failed to align APK" (.processError cmd)),
       [.resolve "zipalign", .run cmd]⟩
    else if ¬ env.alignProduces then
      ⟨.error (.err .align (.artifactMissing out)), [.resolve "zipalign", .run cmd]⟩
    else ⟨.ok out, [.resolve "zipalign", .run cmd]⟩

/-- Embeds `APKPatcher.sign` (`core/patcher.py:113-164`). -/
def sign (env : PatchEnv) (input out keystore keyAlias ksPass keyPass : String) :
    StageOut :=
  if ¬ env.apksignerResolvable then
    ⟨.error (.toolNotFound "apksigner"), [.resolve "apksigner"]⟩
  else
    let cmd := signCmd env.apksignerPath keystore keyAlias ksPass keyPass out input
    if ¬ env.signRuns then
      ⟨.error (.wrap .sign "Failed to sign APK" (.processError cmd)),
       [.resolve "apksigner", .run cmd]⟩
    else if ¬ env.signProduces then
      ⟨.error (.err .sign (.artifactMissing out)), [.resolve "apksigner", .run cmd]⟩
    else ⟨.ok out, [.resolve "apksigner", .run cmd]⟩

/-- Embeds `APKPatcher.verify` (`core/patcher.py:166-186`): `run_tool` with
`check=False`, so the only raising path is the process failing to launch;
otherwise the boolean is the exit status. -/
def verify (env : PatchEnv) (apk : String) : (Except BErr Bool) × List Event :=
  if ¬ env.apksignerResolvable then
    (.error (.toolNotFound "apksigner"), [.resolve "apksigner"])
  else
    let cmd := verifyCmd env.apksignerPath apk
    if ¬ env.verifyLaunches then
      (.error (.wrap .sign "Failed to verify APK" (.processError cmd)),
       [.resolve "apksigner", .run cmd])
    else (.ok env.verifyExitZero, [.resolve "apksigner", .run cmd])

/-- Result of `generate_debug_keystore`: the returned path (or raised
error), the events, and whether the debug keystore file exists afterwards. -/
structure KeystoreOut where
  result : Except BErr String
  events : List Event
  ksAfter : Bool
  deriving Repr, DecidableEq

/-- Embeds `APKPatcher.generate_debug_keystore` (`core/patcher.py:188-239`):
`require("keytool")`, return early when the keystore file already exists,
otherwise run `keytool -genkey` and assert the file now exists.
`ks` is whether the debug keystore file exists when the call starts. -/
def generate_debug_keystore (env : PatchEnv) (ks : Bool) : KeystoreOut :=
  if ¬ env.keytoolAvailable then
    ⟨.error (.toolNotFound "keytool"), [.resolve "keytool"], ks⟩
  else if ks then
    ⟨.ok debugKeystorePath, [.resolve "keytool"], ks⟩
  else if ¬ env.keytoolRuns then
    ⟨.error (.wrap .sign "Failed to generate debug keystore"
       (.processError keytoolCmd)),
     [.resolve "keytool", .run keytoolCmd], false⟩
  else if ¬ env.keytoolProduces then
    ⟨.error (.err .sign (.artifactMissing debugKeystorePath)),
     [.resolve "keytool", .run keytoolCmd], false⟩
  else
    ⟨.ok debugKeystorePath, [.resolve "keytool", .run keytoolCmd], true⟩

/-- Embeds `PatchResult` — its class declaration is not among the sources; the
fields are those of the construction site `core/patcher.py:315-322`. -/
structure PatchResult where
  sourceDir : String
  outputPath : String
  signed : Bool
  aligned : Bool
  verified : Option Bool
  keystoreGenerated : Bool
  deriving Repr, DecidableEq

/-- Arguments of `APKPatcher.patch` (`core/patcher.py:241-249`). -/
structure PatchArgs where
  sign : Bool
  align : Bool
  verifySignature : Bool
  keystore : Option String
  keyAlias : String
  keystorePass : String
  keyPass : String
  deriving Repr, DecidableEq

/-- The defaulted argument record of `patch`. -/
def defaultPatchArgs : PatchArgs :=
  ⟨true, true, false, none, DEFAULT_KEY_ALIAS, DEFAULT_STORE_PASS,
   DEFAULT_STORE_PASS⟩

/-- Observable outcome of one `patch` run: the returned result or raised
error, the event trace, whether the debug keystore file exists afterwards,
the bytes at the caller's final output path (`none` = nothing was written
there this run), and every file path the run created (staged or final). -/
structure PatchOutcome where
  result : Except BErr PatchResult
  events : List Event
  ksAfter : Bool
  outputContent : Option (List Nat)
  createdPaths : List String

/-- Step 3 of `patch` once a signing identity `ksPath` is resolved
(`core/patcher.py:297-308` plus the result construction of lines 315-322):
run the signer against the current artifact, writing directly to the final
output path, then optionally run the verifier; `gen` is the
`keystore_generated` flag, `ksA` the keystore-file state, `ev`/`created`
the events and created paths accumulated so far, and `evK`/`crK` those of
the keystore-resolution step. -/
def signStep (env : PatchEnv) (dir out current : String) (args : PatchArgs)
    (content : List Nat) (ev : List Event) (created : List String)
    (ksPath : String) (gen : Bool) (ksA : Bool) (evK : List Event)
    (crK : List String) : PatchOutcome :=
  let s := sign env current out ksPath args.keyAlias args.keystorePass
    args.keyPass
  match s.result with
  | .error e => ⟨.error e, ev ++ evK ++ s.events, ksA, none, created ++ crK⟩
  | .ok _ =>
    let outContent := some (env.signContent content)
    let created' := created ++ crK ++ [out]
    if args.verifySignature then
      let v := verify env out
      match v.1 with
      | .error e =>
          ⟨.error e, ev ++ evK ++ s.events ++ v.2, ksA, outContent, created'⟩
      | .ok b =>
          ⟨.ok ⟨dir, out, args.sign, args.align, some b, gen⟩,
           ev ++ evK ++ s.events ++ v.2, ksA, outContent, created'⟩
    else
      ⟨.ok ⟨dir, out, args.sign, args.align, none, gen⟩,
       ev ++ evK ++ s.events, ksA, outContent, created'⟩

/-- Path of the staged build artifact (`core/patcher.py:279`). -/
def builtApkPath : String := "<tmp>/built.apk"

/-- Path of the staged aligned artifact (`core/patcher.py:286`). -/
def alignedApkPath : String := "<tmp>/aligned.apk"

/-- Embeds `APKPatcher.patch` (`core/patcher.py:241-322`): validate, build into the
staging area, optionally align, then either sign to the final output path
(lazily provisioning the debug keystore when none was supplied, and
optionally verifying) or copy the current staged artifact verbatim to the
final output path. -/
def patch (env : PatchEnv) (dir out : String) (args : PatchArgs) :
    PatchOutcome :=
  match validate env dir with
  | .error e => ⟨.error e, [], env.debugKeystoreIsFile, none, []⟩
  | .ok _ =>
    match build env dir builtApkPath with
    | ⟨.error e, ev⟩ => ⟨.error e, ev, env.debugKeystoreIsFile, none, []⟩
    | ⟨.ok _, evB⟩ =>
      let contentB := env.buildContent
      let createdB := [builtApkPath]
      -- Step 2: align (if requested)
      let alignStep : (Except BErr (List Nat × String)) × List Event ×
          List String :=
        if args.align then
          match align env builtApkPath alignedApkPath with
          | ⟨.error e, evA⟩ => (.error e, evB ++ evA, createdB)
          | ⟨.ok _, evA⟩ =>
              ((.ok (env.alignContent contentB, alignedApkPath)), evB ++ evA,
               createdB ++ [alignedApkPath])
        else (.ok (contentB, builtApkPath), evB, createdB)
      match alignStep with
      | (.error e, ev, created) =>
          ⟨.error e, ev, env.debugKeystoreIsFile, none, created⟩
      | (.ok (content, current), ev, created) =>
        if args.sign then
          -- resolve the caller's keystore or lazily generate the debug one
          match args.keystore with
          | some k =>
              signStep env dir out current args content ev created k false
                env.debugKeystoreIsFile [] []
          | none =>
            let g := generate_debug_keystore env env.debugKeystoreIsFile
            match g.result with
            | .error e => ⟨.error e, ev ++ g.events, g.ksAfter, none, created⟩
            | .ok p =>
                signStep env dir out current args content ev created p true
                  g.ksAfter g.events
                  (if ¬ env.debugKeystoreIsFile ∧ g.ksAfter then
                     [debugKeystorePath]
                   else [])
        else
          -- no signing: copy the current staged artifact to the output
          ⟨.ok ⟨dir, out, args.sign, args.align, none, false⟩,
           ev, env.debugKeystoreIsFile, some content, created ++ [out]⟩

end APKPatcher

namespace APKDecompiler

/-- Environment of one `APKDecompiler` run: the validation facts about the
APK and the behavior of the two decompilation tools. -/
structure DecompEnv where
  apk : ApkFileInfo
  jadxAvailable : Bool
  jadxRuns : Bool
  jadxProducesDir : Bool
  apktoolAvailable : Bool
  apktoolRuns : Bool
  apktoolProducesDir : Bool

/-- Embeds `jadx -d <output> <apk>` (`core/decompiler.py:80`). -/
def jadxCmd (out apk : String) : List String := ["jadx", "-d", out, apk]

/-- Embeds `apktool d -o <output> <apk> -f` (`core/decompiler.py:110`). -/
def apktoolDCmd (out apk : String) : List String :=
  ["apktool", "d", "-o", out, apk, "-f"]

/-- Embeds `APKDecompiler.decompile_java` (`core/decompiler.py:64-92`):
`require("jadx")`, run jadx, assert the output directory exists. -/
def decompile_java (env : DecompEnv) (out apk : String) : StageOut :=
  if ¬ env.jadxAvailable then
    ⟨.error (.toolNotFound "jadx"), [.resolve "jadx"]⟩
  else if ¬ env.jadxRuns then
    ⟨.error (.wrap .decompile "jadx decompilation failed"
       (.processError (jadxCmd out apk))),
     [.resolve "jadx", .run (jadxCmd out apk)]⟩
  else if ¬ env.jadxProducesDir then
    ⟨.error (.err .decompile (.artifactMissing out)),
     [.resolve "jadx", .run (jadxCmd out apk)]⟩
  else ⟨.ok out, [.resolve "jadx", .run (jadxCmd out apk)]⟩

/-- Embeds `APKDecompiler.decompile_smali` (`core/decompiler.py:94-122`). -/
def decompile_smali (env : DecompEnv) (out apk : String) : StageOut :=
  if ¬ env.apktoolAvailable then
    ⟨.error (.toolNotFound "apktool"), [.resolve "apktool"]⟩
  else if ¬ env.apktoolRuns then
    ⟨.error (.wrap .decompile "apktool decompilation failed"
       (.processError (apktoolDCmd out apk))),
     [.resolve "apktool", .run (apktoolDCmd out apk)]⟩
  else if ¬ env.apktoolProducesDir then
    ⟨.error (.err .decompile (.artifactMissing out)),
     [.resolve "apktool", .run (apktoolDCmd out apk)]⟩
  else ⟨.ok out, [.resolve "apktool", .run (apktoolDCmd out apk)]⟩

/-- Embeds `DecompileResult` — its class declaration is not among the sources; the
fields are those of the construction site `core/decompiler.py:179-186`. -/
structure DecompileResult where
  apkPath : String
  outputDir : String
  javaDir : Option String
  smaliDir : Option String
  javaSuccess : Bool
  smaliSuccess : Bool
  deriving Repr, DecidableEq

/-- Observable outcome of one `decompile` run. -/
structure DecompileOutcome where
  result : Except BErr DecompileResult
  events : List Event
  deriving Repr, DecidableEq

/-- Embeds `APKDecompiler.decompile` (`core/decompiler.py:124-186`): validate, then
require at least one target; attempt jadx, continuing into the apktool
attempt when jadx raised a `DecompileError` and smali was also requested;
attempt apktool, raising "Both jadx and apktool decompilation failed" when
java was requested and had failed, re-raising when smali was the only
target, and otherwise recording the failure in the result flags.  Note that
only `DecompileError` is caught by the fallthrough: any other exception
(e.g. `ToolNotFoundError` from `require`) propagates immediately. -/
def decompile (env : DecompEnv) (apkPath outputDir : String)
    (java smali : Bool) : DecompileOutcome :=
  match validate env.apk apkPath with
  | .error e => ⟨.error e, []⟩
  | .ok _ =>
    if ¬ java ∧ ¬ smali then ⟨.error (.err .decompile .atLeastOne), []⟩
    else
      let javaDir := outputDir ++ "/java"
      let smaliDir := outputDir ++ "/smali"
      -- the java attempt: `none` means it failed with a caught DecompileError
      let javaStep : (Except BErr Bool) × List Event :=
        if java then
          match decompile_java env javaDir apkPath with
          | ⟨.ok _, ev⟩ => (.ok true, ev)
          | ⟨.error e, ev⟩ =>
            if e.cls = some .decompile then
              if ¬ smali then (.error e, ev) else (.ok false, ev)
            else (.error e, ev)
        else (.ok false, [])
      match javaStep with
      | (.error e, ev) => ⟨.error e, ev⟩
      | (.ok javaSuccess, ev) =>
        let smaliStep : (Except BErr Bool) × List Event :=
          if smali then
            match decompile_smali env smaliDir apkPath with
            | ⟨.ok _, evS⟩ => (.ok true, ev ++ evS)
            | ⟨.error e, evS⟩ =>
              if e.cls = some .decompile then
                if java ∧ ¬ javaSuccess then
                  (.error (.err .decompile .bothDecompilersFailed), ev ++ evS)
                else if ¬ java then (.error e, ev ++ evS)
                else (.ok false, ev ++ evS)
              else (.error e, ev ++ evS)
          else (.ok false, ev)
        match smaliStep with
        | (.error e, evAll) => ⟨.error e, evAll⟩
        | (.ok smaliSuccess, evAll) =>
            ⟨.ok ⟨apkPath, outputDir,
                  if javaSuccess then some javaDir else none,
                  if smaliSuccess then some smaliDir else none,
                  javaSuccess, smaliSuccess⟩,
             evAll⟩

end APKDecompiler

namespace SplitAPKMerger

/-- Environment of one `SplitAPKMerger` run. -/
structure MergeEnv where
  dirExists : Bool
  isDir : Bool
  apkFiles : List String
  apkeditorResolvable : Bool
  apkeditorCmd : List String
  mergeRuns : Bool
  mergeProduces : Bool
  outputExists : Bool

/-- Observable outcome of one `merge` run.  `unlinked` records whether the
run deleted a pre-existing file at the output path; `outputExistsAfter` is
the final existence of the output path (a failed tool run is modelled as
producing nothing). -/
structure MergeOutcome where
  result : Except BErr String
  events : List Event
  outputExistsAfter : Bool
  unlinked : Bool
  deriving Repr, DecidableEq

/-- Embeds `SplitAPKMerger._validate` (`core/merger.py:22-34`): the directory must
exist, be a directory, and its `*.apk` glob must be non-empty; the three
failures carry distinct `APKMergeError` messages. -/
def validateDir (env : MergeEnv) (splitDir : String) :
    Except BErr (List String) :=
  if ¬ env.dirExists then .error (.err .merge (.splitDirNotFound splitDir))
  else if ¬ env.isDir then .error (.err .merge (.splitNotADirectory splitDir))
  else if env.apkFiles.isEmpty then
    .error (.err .merge (.noApkFiles splitDir))
  else .ok env.apkFiles

/-- Embeds `SplitAPKMerger.merge` (`core/merger.py:36-73`): validate the directory,
`require("APKEditor")` (which resolves the tool), delete any pre-existing
output file, resolve the APKEditor command again, run it, and assert the
merged APK exists. -/
def merge (env : MergeEnv) (splitDir out : String) : MergeOutcome :=
  match validateDir env splitDir with
  | .error e => ⟨.error e, [], env.outputExists, false⟩
  | .ok _ =>
    -- require("APKEditor") resolves the command to decide availability
    if ¬ env.apkeditorResolvable then
      ⟨.error (.toolNotFound "APKEditor"), [.resolve "APKEditor"],
       env.outputExists, false⟩
    else
      -- mkdir of the output parent, then unlink of a pre-existing output
      let unlinked := env.outputExists
      -- second resolution: `get_apkeditor_command()`; in a fixed
      -- environment it succeeds because `require` already did
      let cmd := env.apkeditorCmd ++ ["merge", "-i", splitDir, "-o", out]
      if ¬ env.mergeRuns then
        ⟨.error (.wrap .merge "APKEditor merge failed" (.processError cmd)),
         [.resolve "APKEditor", .resolve "APKEditor", .run cmd],
         false, unlinked⟩
      else if ¬ env.mergeProduces then
        ⟨.error (.err .merge (.artifactMissing out)),
         [.resolve "APKEditor", .resolve "APKEditor", .run cmd],
         false, unlinked⟩
      else
        ⟨.ok out, [.resolve "APKEditor", .resolve "APKEditor", .run cmd],
         true, unlinked⟩

end SplitAPKMerger

namespace ReflutterPatcher

/-- Embeds `DumpResult` (`models/flutter.py:30-46`). -/
structure DumpResult where
  packageName : String
  dumpPath : String
  formattedPath : Option String
  success : Bool
  autoStarted : Bool
  deriving Repr, DecidableEq

/-- Embeds `FlutterPatchResult` (`models/flutter.py:8-27`). -/
structure FlutterPatchResult where
  packageName : String
  originalApk : String
  patchedApk : String
  signedApk : String
  installed : Bool
  dumpResult : Option DumpResult
  deriving Repr, DecidableEq

/-- Environment of one `ReflutterPatcher` workflow run.  `whichTool` is the
PATH lookup used by `check_tool`/`require`; the remaining fields are the
validation facts and tool-behavior oracles, with the nested
Build-Align-Sign pipeline's environment carried verbatim (the signing step
reuses `APKPatcher.patch`).  Local filesystem writes (temp dirs, copies,
`write_text`) are assumed to succeed. -/
structure ReflutterEnv where
  whichTool : String → Bool
  apkInfo : ApkFileInfo
  zip : ZipOpen
  packageName : String
  deviceId : Option String
  reflutterRuns : Bool
  reflutterProduces : Bool
  decodeRuns : Bool
  patchEnv : APKPatcher.PatchEnv
  installRuns : Bool
  monkeyRuns : Bool
  rootOk : Bool
  dumpRuns : Bool
  dumpStdout : String
  dumpParsesAsJson : Bool

/-- Embeds the `adb` command vector, extended with `-s <device>` when a device id is given
(`core/reflutter.py:170-172`, `248-251`, `319-321`). -/
def adbBase : Option String → List String
  | some d => ["adb", "-s", d]
  | none => ["adb"]

/-- The `su -c id` root check (`core/reflutter.py:176`). -/
def rootCheckCmd (deviceId : Option String) : List String :=
  adbBase deviceId ++ ["shell", "su", "-c", "id"]

/-- The `su -c cat .../dump.dart` command (`core/reflutter.py:186-191`). -/
def dumpCmd (pkg : String) (deviceId : Option String) : List String :=
  adbBase deviceId ++
    ["shell", "su", "-c", "cat /data/data/" ++ pkg ++ "/dump.dart"]

/-- The monkey launch command (`core/reflutter.py:254-262`). -/
def monkeyCmd (pkg : String) (deviceId : Option String) : List String :=
  adbBase deviceId ++
    ["shell", "monkey", "-p", pkg, "-c", "android.intent.category.LAUNCHER",
     "1"]

/-- Embeds `Path.with_suffix(".json")`, specialised to the `*.dart` dump paths all
call sites use. -/
def withSuffixJson (p : String) : String :=
  String.mk (p.data.take (p.data.length - 5)) ++ ".json"

/-- The staging area of the instrumentation workflow
(`tempfile.TemporaryDirectory(prefix="batuta-flutter-")`). -/
def flutterTmp : String := "<fluttertmp>"

/-- The well-known reflutter output artifact (`core/reflutter.py:76`),
inside the working directory the tool was run in. -/
def releaseApkPath (workDir : String) : String := workDir ++ "/release.RE.apk"

/-- The decoded project directory of the re-signing step
(`core/reflutter.py:111`). -/
def decodedDir : String := "<signtmp>/decoded"

/-- Embeds `ReflutterPatcher.patch` (`core/reflutter.py:52-85`): `require`
reflutter, run it inside the working directory, and assert
`release.RE.apk` exists; every failure inside the `try` — the process
failure as well as the artifact-missing `ReflutterError` — is re-raised
wrapped as `ReflutterError("reflutter patching failed: ...")`. -/
def patch (env : ReflutterEnv) (apkPath workDir : String) : StageOut :=
  if ¬ env.whichTool "reflutter" then
    ⟨.error (.toolNotFound "reflutter"), [.resolve "reflutter"]⟩
  else
    let cmd := ["reflutter", apkPath]
    if ¬ env.reflutterRuns then
      ⟨.error (.wrap .reflutter "reflutter patching failed"
         (.processError cmd)),
       [.resolve "reflutter", .run cmd]⟩
    else if ¬ env.reflutterProduces then
      ⟨.error (.wrap .reflutter "reflutter patching failed"
         (.err .reflutter (.artifactMissing (releaseApkPath workDir)))),
       [.resolve "reflutter", .run cmd]⟩
    else ⟨.ok (releaseApkPath workDir), [.resolve "reflutter", .run cmd]⟩

/-- Embeds `require(*tools)` over the PATH lookup: the resolution events up to and
including the first missing tool, plus the error, if any. -/
def requireTools (which : String → Bool) : List String →
    (Except BErr Unit) × List Event
  | [] => (.ok (), [])
  | t :: ts =>
    if ¬ which t then (.error (.toolNotFound t), [.resolve t])
    else
      let rest := requireTools which ts
      (rest.1, .resolve t :: rest.2)

/-- Embeds `ReflutterPatcher.sign_patched_apk` (`core/reflutter.py:87-138`):
require the four tools, decode the patched APK with apktool into a staging
area, then rebuild/align/sign it by reusing `APKPatcher.patch` with
`sign=True, align=True`; decode and patch failures are wrapped as
`FlutterError`.  Returns the signed output path, the events, and whether
the debug keystore file exists afterwards. -/
def sign_patched_apk (env : ReflutterEnv) (patchedApk outputPath : String) :
    (Except BErr String) × List Event × Bool :=
  let req := requireTools env.whichTool
    ["apktool", "apksigner", "keytool", "zipalign"]
  match req.1 with
  | .error e => (.error e, req.2, env.patchEnv.debugKeystoreIsFile)
  | .ok _ =>
    let decodeCmdV := ["apktool", "d", "-o", decodedDir, patchedApk, "-f"]
    if ¬ env.decodeRuns then
      (.error (.wrap .flutter "Failed to decode patched APK"
         (.processError decodeCmdV)),
       req.2 ++ [.run decodeCmdV], env.patchEnv.debugKeystoreIsFile)
    else
      let po := APKPatcher.patch env.patchEnv decodedDir outputPath
        { APKPatcher.defaultPatchArgs with sign := true, align := true }
      match po.result with
      | .error e =>
          (.error (.wrap .flutter "Failed to sign patched APK" e),
           req.2 ++ [.run decodeCmdV] ++ po.events, po.ksAfter)
      | .ok r =>
          (.ok r.outputPath, req.2 ++ [.run decodeCmdV] ++ po.events,
           po.ksAfter)

/-- Embeds `ReflutterPatcher.dump_dart_code` (`core/reflutter.py:140-228`):
require adb, optionally check root access via `su -c id`, `cat` the
well-known per-package dump file, fail on empty content, write the raw
dump, and opportunistically write a JSON-formatted copy when the content
parses.  Every failure inside the dump `try` is re-raised wrapped as
`DartDumpError("Failed to dump Dart code: ...")`. -/
def dump_dart_code (env : ReflutterEnv) (pkg outputPath : String)
    (formatJson : Bool) (deviceId : Option String) (checkRoot : Bool) :
    (Except BErr DumpResult) × List Event :=
  if ¬ env.whichTool "adb" then
    (.error (.toolNotFound "adb"), [.resolve "adb"])
  else
    let rootStep : (Except BErr Unit) × List Event :=
      if checkRoot then
        if ¬ env.rootOk then
          (.error (.wrap .dartDump "Root access required for Dart dump"
             (.processError (rootCheckCmd deviceId))),
           [.resolve "adb", .run (rootCheckCmd deviceId)])
        else (.ok (), [.resolve "adb", .run (rootCheckCmd deviceId)])
      else (.ok (), [.resolve "adb"])
    match rootStep.1 with
    | .error e => (.error e, rootStep.2)
    | .ok _ =>
      let cmd := dumpCmd pkg deviceId
      if ¬ env.dumpRuns then
        (.error (.wrap .dartDump "Failed to dump Dart code"
           (.processError cmd)),
         rootStep.2 ++ [.run cmd])
      else if env.dumpStdout = "" ∨ strip env.dumpStdout = "" then
        (.error (.wrap .dartDump "Failed to dump Dart code"
           (.err .dartDump .emptyDump)),
         rootStep.2 ++ [.run cmd])
      else
        let formatted :=
          if formatJson ∧ env.dumpParsesAsJson then
            some (withSuffixJson outputPath)
          else none
        (.ok ⟨pkg, outputPath, formatted, true, false⟩,
         rootStep.2 ++ [.run cmd])

/-- Embeds `ReflutterPatcher.auto_start_app` (`core/reflutter.py:230-270`):
require adb, launch via monkey; any failure of the launch is swallowed
into `False`. -/
def auto_start_app (env : ReflutterEnv) (pkg : String)
    (deviceId : Option String) : (Except BErr Bool) × List Event :=
  if ¬ env.whichTool "adb" then
    (.error (.toolNotFound "adb"), [.resolve "adb"])
  else
    let cmd := monkeyCmd pkg deviceId
    if env.monkeyRuns then (.ok true, [.resolve "adb", .run cmd])
    else (.ok false, [.resolve "adb", .run cmd])

/-- Observable outcome of one `patch_and_install` run. -/
structure WorkflowOutcome where
  result : Except BErr FlutterPatchResult
  events : List Event
  deriving Repr, DecidableEq

/-- Embeds `ReflutterPatcher.patch_and_install` (`core/reflutter.py:272-382`):
require the six tools, validate the APK as Flutter unless forced,
instrument it with reflutter inside a staging area, re-sign via
`sign_patched_apk`, best-effort uninstall, install (fatal on failure),
then — unless skipped — start the app (interactive prompt, or monkey
launch degrading into the prompt) and attempt the Dart dump, where only a
`DartDumpError` is absorbed into a `None` dump result. -/
def patch_and_install (env : ReflutterEnv) (apkPath outputDirPath : String)
    (skipDump waitForUser force : Bool) : WorkflowOutcome :=
  let req := requireTools env.whichTool
    ["adb", "reflutter", "apktool", "apksigner", "keytool", "zipalign"]
  match req.1 with
  | .error e => ⟨.error e, req.2⟩
  | .ok _ =>
    let validateStep : Except BErr Unit :=
      if ¬ force then validate_flutter env.apkInfo env.zip apkPath else .ok ()
    match validateStep with
    | .error e => ⟨.error e, req.2⟩
    | .ok _ =>
      let p := patch env apkPath flutterTmp
      match p.result with
      | .error e => ⟨.error e, req.2 ++ p.events⟩
      | .ok patchedApk =>
        let signedPath :=
          outputDirPath ++ "/" ++ env.packageName ++ "-reflutter-signed.apk"
        let sp := sign_patched_apk env patchedApk signedPath
        match sp.1 with
        | .error e => ⟨.error e, req.2 ++ p.events ++ sp.2.1⟩
        | .ok signedApk =>
          let uninstallCmdV :=
            adbBase env.deviceId ++ ["uninstall", env.packageName]
          let installCmdV := adbBase env.deviceId ++ ["install", signedApk]
          let evPre := req.2 ++ p.events ++ sp.2.1 ++
            [.run uninstallCmdV, .run installCmdV]
          if ¬ env.installRuns then
            ⟨.error (.wrap .flutter "Failed to install patched APK"
               (.processError installCmdV)), evPre⟩
          else
            -- installed = True from here on
            if skipDump then
              ⟨.ok ⟨env.packageName, apkPath, patchedApk, signedApk, true,
                    none⟩, evPre⟩
            else
              let startStep : (Except BErr Unit) × List Event :=
                if waitForUser then (.ok (), [.prompt])
                else
                  let a := auto_start_app env env.packageName env.deviceId
                  match a.1 with
                  | .error e => (.error e, a.2)
                  | .ok true => (.ok (), a.2)
                  | .ok false => (.ok (), a.2 ++ [.prompt])
              match startStep.1 with
              | .error e => ⟨.error e, evPre ++ startStep.2⟩
              | .ok _ =>
                let dumpPath :=
                  outputDirPath ++ "/" ++ env.packageName ++ "_dump.dart"
                let d := dump_dart_code env env.packageName dumpPath true
                  env.deviceId true
                match d.1 with
                | .ok r =>
                    ⟨.ok ⟨env.packageName, apkPath, patchedApk, signedApk,
                          true,
                          some { r with autoStarted := ¬ waitForUser }⟩,
                     evPre ++ startStep.2 ++ d.2⟩
                | .error e =>
                  if e.cls = some .dartDump then
                    ⟨.ok ⟨env.packageName, apkPath, patchedApk, signedApk,
                          true, none⟩,
                     evPre ++ startStep.2 ++ d.2⟩
                  else ⟨.error e, evPre ++ startStep.2 ++ d.2⟩

end ReflutterPatcher

/-! ## Concrete instances used by counterexamples and witnesses -/

/-- A file whose first four bytes are not the ZIP local-file-header
signature, but which is nevertheless a readable ZIP archive containing the
Flutter library entry: e.g. a ZIP with junk bytes prepended (`ZipFile`
locates the central directory from the end of the file, so it opens such a
file without error). -/
def strippedHeaderApk : ApkFileInfo := ⟨true, true, true, true, [0, 0, 0, 0]⟩

/-- The namelist view of `strippedHeaderApk`. -/
def flutterZip : ZipOpen := .ok ["lib/arm64-v8a/libflutter.so"]

/-- A well-formed APK file: it exists, is a regular file with the `.apk`
extension, and starts with the ZIP header. -/
def goodApk : ApkFileInfo := ⟨true, true, true, true, ZIP_FILE_HEADER⟩

/-- A patcher environment in which every gate passes and every tool
resolves, runs, and produces its artifact; the debug keystore file already
exists on disk. -/
def allOkPatchEnv : APKPatcher.PatchEnv :=
  { apktoolDirIsDir := true, apktoolYmlIsFile := true,
    apktoolAvailable := true, buildRuns := true, buildProduces := true,
    buildContent := [80, 75], zipalignResolvable := true,
    zipalignPath := "zipalign", alignRuns := true, alignProduces := true,
    alignContent := id, apksignerResolvable := true,
    apksignerPath := "apksigner", signRuns := true, signProduces := true,
    signContent := id, verifyLaunches := true, verifyExitZero := true,
    keytoolAvailable := true, keytoolRuns := true, keytoolProduces := true,
    debugKeystoreIsFile := true }

/-- Like `allOkPatchEnv`, but with no debug keystore on disk yet. -/
def freshKeystoreEnv : APKPatcher.PatchEnv :=
  { allOkPatchEnv with debugKeystoreIsFile := false }

/-- The `patch` arguments with both align and sign switched off. -/
def rawCopyArgs : APKPatcher.PatchArgs :=
  { APKPatcher.defaultPatchArgs with align := false, sign := false }

/-- A decompiler environment in which the APK is valid and both tools are
installed, but the jadx run fails while the apktool run succeeds. -/
def jadxFailsEnv : APKDecompiler.DecompEnv :=
  ⟨goodApk, true, false, false, true, true, true⟩

/-- A workflow environment in which every tool is on PATH, the APK is a
valid Flutter APK, instrumentation / decode / re-sign / install all
succeed, but the dump command returns empty content. -/
def baseReflutterEnv : ReflutterPatcher.ReflutterEnv :=
  { whichTool := fun _ => true, apkInfo := goodApk, zip := flutterZip,
    packageName := "com.example.app", deviceId := none,
    reflutterRuns := true, reflutterProduces := true, decodeRuns := true,
    patchEnv := allOkPatchEnv, installRuns := true, monkeyRuns := true,
    rootOk := true, dumpRuns := true, dumpStdout := "",
    dumpParsesAsJson := false }

/-! ## Claim theorems -/

/-- Auxiliary fact: the Decompile entry point rejects every file whose
first four bytes are not the ZIP header (whatever the reason, the result is
an error and never `ok`). -/
theorem decompValidate_errors (f : ApkFileInfo) (path : String)
    (h : f.header ≠ ZIP_FILE_HEADER) :
    ∃ e, APKDecompiler.validate f path = .error e := by
  cases hv : APKDecompiler.validate f path with
  | error e => exact ⟨e, rfl⟩
  | ok u =>
    exfalso
    unfold APKDecompiler.validate at hv
    repeat' split at hv
    all_goals simp_all

/-- C1, counterexample: a readable ZIP-with-prepended-junk `.apk` whose
first four bytes are not `PK\x03\x04` passes
`ReflutterPatcher.validate_flutter` (the Instrumentation entry point)
without any error, because that entry point calls `validate_apk_path`
without `require_zip_header`; so validation does not fail at both entry
points as the claim states. -/
theorem C1_counterexample :
    strippedHeaderApk.header ≠ ZIP_FILE_HEADER ∧
    ReflutterPatcher.validate_flutter strippedHeaderApk flutterZip "app.apk"
      = .ok () :=
  ⟨by decide, by decide⟩

/-- C1 (amended): a file whose first four bytes are not `PK\x03\x04` fails
validation with a fatal error before any external tool is invoked at the
Decompile entry point (`APKDecompiler.validate`, hence `decompile` errors
with an empty event trace); the Instrumentation entry point
(`ReflutterPatcher.validate_flutter`) performs no header check at all — its
outcome is independent of the header bytes. -/
theorem C1_header_check_amended :
    (∀ (env : APKDecompiler.DecompEnv) (apkPath outDir : String)
        (java smali : Bool), env.apk.header ≠ ZIP_FILE_HEADER →
        ∃ e, APKDecompiler.decompile env apkPath outDir java smali =
          ⟨.error e, []⟩) ∧
    (∀ (f : ApkFileInfo) (z : ZipOpen) (path : String) (hd : List Nat),
        ReflutterPatcher.validate_flutter { f with header := hd } z path =
        ReflutterPatcher.validate_flutter f z path) := by
  constructor
  · intro env apkPath outDir java smali h
    obtain ⟨e, he⟩ := decompValidate_errors env.apk apkPath h
    exact ⟨e, by simp [APKDecompiler.decompile, he]⟩
  · intro f z path hd
    cases f
    rfl

/-- C1, witness for the amended theorem at a concrete environment. -/
theorem C1_witness :
    (∃ e, APKDecompiler.decompile
        ⟨strippedHeaderApk, true, true, true, true, true, true⟩
        "app.apk" "out" true true = ⟨.error e, []⟩) ∧
    ReflutterPatcher.validate_flutter
        { strippedHeaderApk with header := [9, 9, 9, 9] } flutterZip "app.apk"
      = ReflutterPatcher.validate_flutter strippedHeaderApk flutterZip
          "app.apk" :=
  ⟨C1_header_check_amended.1 ⟨strippedHeaderApk, true, true, true, true, true,
      true⟩ "app.apk" "out" true true (by decide),
   C1_header_check_amended.2 strippedHeaderApk flutterZip "app.apk"
      [9, 9, 9, 9]⟩

/-- C8: `SplitAPKMerger.merge` against a directory visible but empty of
`.apk` files fails with an `APKMergeError` carrying the no-APKs message,
with an empty event trace (no external tool resolved or invoked) and the
output path untouched; a missing path and a non-directory path likewise
fail before any event, each with its own distinct `APKMergeError` message. -/
theorem C8_merge_gate :
    (∀ (env : SplitAPKMerger.MergeEnv) (dir out : String),
        env.dirExists = true → env.isDir = true → env.apkFiles = [] →
        SplitAPKMerger.merge env dir out =
          ⟨.error (.err .merge (.noApkFiles dir)), [], env.outputExists,
           false⟩) ∧
    (∀ (env : SplitAPKMerger.MergeEnv) (dir out : String),
        env.dirExists = false →
        SplitAPKMerger.merge env dir out =
          ⟨.error (.err .merge (.splitDirNotFound dir)), [],
           env.outputExists, false⟩) ∧
    (∀ (env : SplitAPKMerger.MergeEnv) (dir out : String),
        env.dirExists = true → env.isDir = false →
        SplitAPKMerger.merge env dir out =
          ⟨.error (.err .merge (.splitNotADirectory dir)), [],
           env.outputExists, false⟩) := by
  refine ⟨?_, ?_, ?_⟩ <;> intro env dir out <;> intros <;>
    simp_all [SplitAPKMerger.merge, SplitAPKMerger.validateDir]

/-- C8, witness: the three gate failures at concrete environments. -/
theorem C8_witness :
    SplitAPKMerger.merge
        ⟨true, true, [], true, ["java"], true, true, false⟩ "d" "o" =
      ⟨.error (.err .merge (.noApkFiles "d")), [], false, false⟩ ∧
    SplitAPKMerger.merge
        ⟨false, false, [], true, ["java"], true, true, true⟩ "d" "o" =
      ⟨.error (.err .merge (.splitDirNotFound "d")), [], true, false⟩ ∧
    SplitAPKMerger.merge
        ⟨true, false, [], true, ["java"], true, true, false⟩ "d" "o" =
      ⟨.error (.err .merge (.splitNotADirectory "d")), [], false, false⟩ :=
  ⟨C8_merge_gate.1 _ "d" "o" rfl rfl rfl,
   C8_merge_gate.2.1 _ "d" "o" rfl,
   C8_merge_gate.2.2 _ "d" "o" rfl rfl⟩

/-- C9: when the apktool project marker is absent (or the source path is
not a directory), `APKPatcher.patch` fails with an `APKBuildError` carrying
the corresponding message, with an empty event trace (no external tool
invoked), no bytes written to the final output path, no file created at any
staged or final path, and the keystore state untouched. -/
theorem C9_build_gate (env : APKPatcher.PatchEnv) (dir out : String)
    (args : APKPatcher.PatchArgs)
    (h : env.apktoolDirIsDir = false ∨ env.apktoolYmlIsFile = false) :
    APKPatcher.patch env dir out args =
      ⟨.error (.err .build
          (if env.apktoolDirIsDir then .missingMarker dir
           else .dirNotFound dir)),
       [], env.debugKeystoreIsFile, none, []⟩ := by
  rcases h with h | h
  · simp [APKPatcher.patch, APKPatcher.validate, h]
  · by_cases hd : env.apktoolDirIsDir <;>
      simp_all [APKPatcher.patch, APKPatcher.validate]

/-- C9, witness at a concrete environment with the marker file absent. -/
theorem C9_witness :
    APKPatcher.patch
        { apktoolDirIsDir := true, apktoolYmlIsFile := false,
          apktoolAvailable := true, buildRuns := true, buildProduces := true,
          buildContent := [1], zipalignResolvable := true,
          zipalignPath := "zipalign", alignRuns := true,
          alignProduces := true, alignContent := id,
          apksignerResolvable := true, apksignerPath := "apksigner",
          signRuns := true, signProduces := true, signContent := id,
          verifyLaunches := true, verifyExitZero := true,
          keytoolAvailable := true, keytoolRuns := true,
          keytoolProduces := true, debugKeystoreIsFile := false }
        "proj" "out.apk" APKPatcher.defaultPatchArgs =
      ⟨.error (.err .build (.missingMarker "proj")), [], false, none, []⟩ := by
  have h := C9_build_gate
    { apktoolDirIsDir := true, apktoolYmlIsFile := false,
      apktoolAvailable := true, buildRuns := true, buildProduces := true,
      buildContent := [1], zipalignResolvable := true,
      zipalignPath := "zipalign", alignRuns := true,
      alignProduces := true, alignContent := id,
      apksignerResolvable := true, apksignerPath := "apksigner",
      signRuns := true, signProduces := true, signContent := id,
      verifyLaunches := true, verifyExitZero := true,
      keytoolAvailable := true, keytoolRuns := true,
      keytoolProduces := true, debugKeystoreIsFile := false }
    "proj" "out.apk" APKPatcher.defaultPatchArgs (Or.inr rfl)
  simpa using h

/-- C10, counterexample: with the directory gate passing, a pre-existing
file at the output path, and the APKEditor tool unresolvable, the merge
fails — but the failure happens at the `require("APKEditor")` availability
check, which runs *before* the unlink, so the pre-existing output file is
still present afterwards (the claim asserts it would already be deleted in
every gate-passing failing run, including the unresolvable-tool case). -/
theorem C10_counterexample :
    SplitAPKMerger.merge
        ⟨true, true, ["base.apk"], false, [], false, false, true⟩
        "splits" "out.apk" =
      ⟨.error (.toolNotFound "APKEditor"), [.resolve "APKEditor"], true,
       false⟩ :=
  rfl

/-- C10 (amended): the unlink of a pre-existing output file happens after
the availability check but before the second tool resolution and the
invocation, so whenever the directory gate passes, the tool is resolvable,
and the merge then fails (tool failure or missing artifact), the
pre-existing output file has already been deleted and is not restored;
when the tool is unresolvable the failure precedes the unlink and the file
is preserved. -/
theorem C10_unlink_amended (env : SplitAPKMerger.MergeEnv) (dir out : String)
    (hD : env.dirExists = true) (hI : env.isDir = true)
    (hA : env.apkFiles ≠ []) (hRes : env.apkeditorResolvable = true)
    (hPre : env.outputExists = true)
    (hFail : env.mergeRuns = false ∨ env.mergeProduces = false) :
    ∃ e, SplitAPKMerger.merge env dir out =
      ⟨.error e,
       [.resolve "APKEditor", .resolve "APKEditor",
        .run (env.apkeditorCmd ++ ["merge", "-i", dir, "-o", out])],
       false, true⟩ := by
  rcases hFail with h | h
  · exact ⟨.wrap .merge "APKEditor merge failed"
      (.processError (env.apkeditorCmd ++ ["merge", "-i", dir, "-o", out])),
      by simp_all [SplitAPKMerger.merge, SplitAPKMerger.validateDir,
        List.isEmpty_iff]⟩
  · by_cases hr : env.mergeRuns
    · exact ⟨.err .merge (.artifactMissing out),
        by simp_all [SplitAPKMerger.merge, SplitAPKMerger.validateDir,
          List.isEmpty_iff]⟩
    · exact ⟨.wrap .merge "APKEditor merge failed"
        (.processError (env.apkeditorCmd ++ ["merge", "-i", dir, "-o", out])),
        by simp_all [SplitAPKMerger.merge, SplitAPKMerger.validateDir,
          List.isEmpty_iff]⟩

/-- C10, witness for the amended theorem: a failing tool run after the
gate passed deletes and does not restore the pre-existing output file. -/
theorem C10_witness :
    ∃ e, SplitAPKMerger.merge
        ⟨true, true, ["base.apk"], true, ["java"], false, false, true⟩
        "splits" "out.apk" =
      ⟨.error e,
       [.resolve "APKEditor", .resolve "APKEditor",
        .run (["java"] ++ ["merge", "-i", "splits", "-o", "out.apk"])],
       false, true⟩ :=
  C10_unlink_amended
    ⟨true, true, ["base.apk"], true, ["java"], false, false, true⟩
    "splits" "out.apk" rfl rfl (by decide) rfl rfl (Or.inl rfl)

/-- Auxiliary fact: a successful run of `signStep` reports exactly the
`keystore_generated` flag it was handed. -/
theorem signStep_ok_gen (env : APKPatcher.PatchEnv) (dir out current : String)
    (args : APKPatcher.PatchArgs) (content : List Nat) (ev : List Event)
    (created : List String) (ksPath : String) (gen ksA : Bool)
    (evK : List Event) (crK : List String) (r : APKPatcher.PatchResult)
    (h : (APKPatcher.signStep env dir out current args content ev created
      ksPath gen ksA evK crK).result = .ok r) :
    r.keystoreGenerated = gen := by
  unfold APKPatcher.signStep at h
  cases hs : (APKPatcher.sign env current out ksPath args.keyAlias
      args.keystorePass args.keyPass).result with
  | error e => simp only [hs] at h; exact Except.noConfusion h
  | ok a =>
    simp only [hs] at h
    by_cases hv : args.verifySignature
    · simp only [hv, if_true] at h
      cases hb : (APKPatcher.verify env out).1 with
      | error e => simp only [hb] at h; exact Except.noConfusion h
      | ok b => simp only [hb] at h; cases h; rfl
    · simp only [hv, if_false] at h
      cases h
      rfl

/-- C2, counterexample: with the debug keystore file already present and no
caller-supplied keystore, a fully successful default `patch` run reports
`keystore_generated = true` even though the run generated nothing — the
keytool command was never invoked, no file was created at the keystore
path, and the keystore state is exactly the pre-existing one. -/
theorem C2_counterexample :
    (APKPatcher.patch allOkPatchEnv "proj" "out.apk"
        APKPatcher.defaultPatchArgs).result =
      .ok ⟨"proj", "out.apk", true, true, none, true⟩ ∧
    Event.run APKPatcher.keytoolCmd ∉
      (APKPatcher.patch allOkPatchEnv "proj" "out.apk"
        APKPatcher.defaultPatchArgs).events ∧
    APKPatcher.debugKeystorePath ∉
      (APKPatcher.patch allOkPatchEnv "proj" "out.apk"
        APKPatcher.defaultPatchArgs).createdPaths ∧
    (APKPatcher.patch allOkPatchEnv "proj" "out.apk"
        APKPatcher.defaultPatchArgs).ksAfter = true ∧
    allOkPatchEnv.debugKeystoreIsFile = true := by
  refine ⟨rfl, ?_, ?_, rfl, rfl⟩ <;> decide

/-- C2 (amended): in every successful `APKPatcher.patch` run, the
`keystore_generated` field of the returned `PatchResult` is true exactly
when signing was requested and no caller keystore was supplied — i.e. it
records that the debug-keystore path was used, not that a keystore file
was created during the run (a pre-existing debug keystore still yields
`true`). -/
theorem C2_keystore_flag_amended (env : APKPatcher.PatchEnv)
    (dir out : String) (args : APKPatcher.PatchArgs)
    (r : APKPatcher.PatchResult)
    (h : (APKPatcher.patch env dir out args).result = .ok r) :
    r.keystoreGenerated = (args.sign && args.keystore.isNone) := by
  unfold APKPatcher.patch at h
  cases hval : APKPatcher.validate env dir with
  | error e => simp only [hval] at h; exact Except.noConfusion h
  | ok u =>
    simp only [hval] at h
    cases hbuild : APKPatcher.build env dir APKPatcher.builtApkPath with
    | mk bres bev =>
      simp only [hbuild] at h
      cases bres with
      | error e => exact Except.noConfusion h
      | ok bp =>
        by_cases hal : args.align
        · simp only [hal, if_true] at h
          cases halign : APKPatcher.align env APKPatcher.builtApkPath
              APKPatcher.alignedApkPath with
          | mk ares aev =>
            simp only [halign] at h
            cases ares with
            | error e => exact Except.noConfusion h
            | ok ap =>
              by_cases hsf : args.sign
              · simp only [hsf, if_true] at h
                cases hks : args.keystore with
                | some k =>
                  simp only [hks] at h
                  rw [signStep_ok_gen env dir out APKPatcher.alignedApkPath
                    args _ _ _ k false _ _ _ r h]
                  simp [hsf, hks]
                | none =>
                  simp only [hks] at h
                  cases hg : (APKPatcher.generate_debug_keystore env
                      env.debugKeystoreIsFile).result with
                  | error e => simp only [hg] at h; exact Except.noConfusion h
                  | ok p =>
                    simp only [hg] at h
                    rw [signStep_ok_gen env dir out APKPatcher.alignedApkPath
                      args _ _ _ p true _ _ _ r h]
                    simp [hsf, hks]
              · simp only [hsf, if_false] at h
                cases h
                simp [hsf]
        · simp only [hal, if_false] at h
          by_cases hsf : args.sign
          · simp only [hsf, if_true] at h
            cases hks : args.keystore with
            | some k =>
              simp only [hks] at h
              rw [signStep_ok_gen env dir out APKPatcher.builtApkPath
                args _ _ _ k false _ _ _ r h]
              simp [hsf, hks]
            | none =>
              simp only [hks] at h
              cases hg : (APKPatcher.generate_debug_keystore env
                  env.debugKeystoreIsFile).result with
              | error e => simp only [hg] at h; exact Except.noConfusion h
              | ok p =>
                simp only [hg] at h
                rw [signStep_ok_gen env dir out APKPatcher.builtApkPath
                  args _ _ _ p true _ _ _ r h]
                simp [hsf, hks]
          · simp only [hsf, if_false] at h
            cases h
            simp [hsf]

/-- C2, witness for the amended theorem at a concrete successful run. -/
theorem C2_witness :
    (⟨"proj", "out.apk", true, true, none, true⟩ :
        APKPatcher.PatchResult).keystoreGenerated =
      (APKPatcher.defaultPatchArgs.sign &&
        APKPatcher.defaultPatchArgs.keystore.isNone) :=
  C2_keystore_flag_amended allOkPatchEnv "proj" "out.apk"
    APKPatcher.defaultPatchArgs ⟨"proj", "out.apk", true, true, none, true⟩
    rfl

/-- Auxiliary fact: `requireTools` succeeds with one resolution event per
tool when every tool is on PATH. -/
theorem requireTools_all (which : String → Bool)
    (h : ∀ t, which t = true) (l : List String) :
    ReflutterPatcher.requireTools which l = (.ok (), l.map .resolve) := by
  induction l with
  | nil => rfl
  | cons t ts ih => simp [ReflutterPatcher.requireTools, h, ih]

/-- Auxiliary fact: with adb on PATH, every error raised by
`dump_dart_code` is a `DartDumpError` (so the workflow's
`except DartDumpError` catches it). -/
theorem dump_error_class (env : ReflutterPatcher.ReflutterEnv)
    (pkg out : String) (fj : Bool) (dev : Option String) (cr : Bool)
    (e : BErr) (hAdb : env.whichTool "adb" = true)
    (h : (ReflutterPatcher.dump_dart_code env pkg out fj dev cr).1 =
      .error e) : e.cls = some .dartDump := by
  by_cases hcr : cr <;> by_cases hro : env.rootOk <;>
    by_cases hdr : env.dumpRuns <;>
      by_cases hemp : (env.dumpStdout = "" ∨ strip env.dumpStdout = "") <;>
        (try simp_all [ReflutterPatcher.dump_dart_code, BErr.cls])
  all_goals subst h
  all_goals rfl

/-- Auxiliary fact: the dump step never issues an uninstall command. -/
theorem uninstall_not_in_dump_events (env : ReflutterPatcher.ReflutterEnv)
    (pkg out q : String) (fj cr : Bool) (dev : Option String) :
    Event.run (ReflutterPatcher.adbBase dev ++ ["uninstall", q]) ∉
      (ReflutterPatcher.dump_dart_code env pkg out fj dev cr).2 := by
  by_cases hA : env.whichTool "adb" <;> by_cases hcr : cr <;>
    by_cases hro : env.rootOk <;> by_cases hdr : env.dumpRuns <;>
      by_cases hemp : (env.dumpStdout = "" ∨ strip env.dumpStdout = "") <;>
        cases dev <;>
          simp_all [ReflutterPatcher.dump_dart_code,
            ReflutterPatcher.rootCheckCmd, ReflutterPatcher.dumpCmd,
            ReflutterPatcher.adbBase]

/-- C3: whenever the six required tools are on PATH, validation passes (or
is forced off), instrumentation, re-signing and install all succeed, and
the dump step fails with any `DartDumpError` (the empty-content case
included), `patch_and_install` with the dump step enabled still returns a
success result with `installed = true` and `dump_result = none`; the dump
failure does not propagate, and the event trace after the install
invocation contains no uninstall invocation (the install is not rolled
back). -/
theorem C3_dump_failure_nonfatal
    (env : ReflutterPatcher.ReflutterEnv) (apkPath outputDirPath : String)
    (waitForUser force : Bool)
    (hTools : ∀ t, env.whichTool t = true)
    (hVal : force = false →
      ReflutterPatcher.validate_flutter env.apkInfo env.zip apkPath = .ok ())
    (hRefRun : env.reflutterRuns = true)
    (hRefProd : env.reflutterProduces = true)
    (hDecode : env.decodeRuns = true)
    (rs : APKPatcher.PatchResult)
    (hSign : (APKPatcher.patch env.patchEnv ReflutterPatcher.decodedDir
        (outputDirPath ++ "/" ++ env.packageName ++ "-reflutter-signed.apk")
        { APKPatcher.defaultPatchArgs with sign := true, align := true
        }).result = .ok rs)
    (hInstall : env.installRuns = true)
    (eD : BErr)
    (hDump : (ReflutterPatcher.dump_dart_code env env.packageName
        (outputDirPath ++ "/" ++ env.packageName ++ "_dump.dart") true
        env.deviceId true).1 = .error eD) :
    (ReflutterPatcher.patch_and_install env apkPath outputDirPath false
        waitForUser force).result =
      .ok ⟨env.packageName, apkPath,
           ReflutterPatcher.releaseApkPath ReflutterPatcher.flutterTmp,
           rs.outputPath, true, none⟩ ∧
    ∃ post,
      (ReflutterPatcher.patch_and_install env apkPath outputDirPath false
          waitForUser force).events =
        (["adb", "reflutter", "apktool", "apksigner", "keytool",
          "zipalign"].map Event.resolve) ++
        [Event.resolve "reflutter", Event.run ["reflutter", apkPath]] ++
        ((["apktool", "apksigner", "keytool", "zipalign"].map
          Event.resolve) ++
         [Event.run ["apktool", "d", "-o", ReflutterPatcher.decodedDir,
            ReflutterPatcher.releaseApkPath ReflutterPatcher.flutterTmp,
            "-f"]] ++
         (APKPatcher.patch env.patchEnv ReflutterPatcher.decodedDir
           (outputDirPath ++ "/" ++ env.packageName ++
             "-reflutter-signed.apk")
           { APKPatcher.defaultPatchArgs with
             sign := true, align := true }).events) ++
        [Event.run (ReflutterPatcher.adbBase env.deviceId ++
           ["uninstall", env.packageName]),
         Event.run (ReflutterPatcher.adbBase env.deviceId ++
           ["install", rs.outputPath])] ++ post ∧
      Event.run (ReflutterPatcher.adbBase env.deviceId ++
        ["uninstall", env.packageName]) ∉ post := by
  have hcls := dump_error_class env env.packageName
    (outputDirPath ++ "/" ++ env.packageName ++ "_dump.dart") true
    env.deviceId true eD (hTools "adb") hDump
  have hreq := requireTools_all env.whichTool hTools
  have hnd := uninstall_not_in_dump_events env env.packageName
    (outputDirPath ++ "/" ++ env.packageName ++ "_dump.dart")
    env.packageName true true env.deviceId
  have hvs : (if force = false then
      ReflutterPatcher.validate_flutter env.apkInfo env.zip apkPath
      else Except.ok ()) = .ok () := by
    cases force
    · simpa using hVal rfl
    · simp
  cases waitForUser with
  | true =>
    constructor
    · simp [ReflutterPatcher.patch_and_install, ReflutterPatcher.patch,
        ReflutterPatcher.sign_patched_apk, hreq, hvs, hTools, hRefRun,
        hRefProd, hDecode, hSign, hInstall, hDump, hcls]
    · refine ⟨[Event.prompt] ++ (ReflutterPatcher.dump_dart_code env
        env.packageName (outputDirPath ++ "/" ++ env.packageName ++
        "_dump.dart") true env.deviceId true).2, ?_, ?_⟩
      · simp [ReflutterPatcher.patch_and_install, ReflutterPatcher.patch,
          ReflutterPatcher.sign_patched_apk, hreq, hvs, hTools, hRefRun,
          hRefProd, hDecode, hSign, hInstall, hDump, hcls]
      · intro hmem
        rcases List.mem_append.mp hmem with hmem | hmem
        · simp at hmem
        · exact hnd hmem
  | false =>
    cases hm : env.monkeyRuns with
    | true =>
      constructor
      · simp [ReflutterPatcher.patch_and_install, ReflutterPatcher.patch,
          ReflutterPatcher.sign_patched_apk, ReflutterPatcher.auto_start_app,
          hreq, hvs, hTools, hRefRun, hRefProd, hDecode, hSign, hInstall,
          hDump, hcls, hm]
      · refine ⟨[Event.resolve "adb",
          Event.run (ReflutterPatcher.monkeyCmd env.packageName
            env.deviceId)] ++ (ReflutterPatcher.dump_dart_code env
          env.packageName (outputDirPath ++ "/" ++ env.packageName ++
          "_dump.dart") true env.deviceId true).2, ?_, ?_⟩
        · simp [ReflutterPatcher.patch_and_install, ReflutterPatcher.patch,
            ReflutterPatcher.sign_patched_apk,
            ReflutterPatcher.auto_start_app, hreq, hvs, hTools, hRefRun,
            hRefProd, hDecode, hSign, hInstall, hDump, hcls, hm]
        · intro hmem
          rcases List.mem_append.mp hmem with hmem | hmem
          · cases env.deviceId <;>
              simp_all [ReflutterPatcher.monkeyCmd, ReflutterPatcher.adbBase]
          · exact hnd hmem
    | false =>
      constructor
      · simp [ReflutterPatcher.patch_and_install, ReflutterPatcher.patch,
          ReflutterPatcher.sign_patched_apk, ReflutterPatcher.auto_start_app,
          hreq, hvs, hTools, hRefRun, hRefProd, hDecode, hSign, hInstall,
          hDump, hcls, hm]
      · refine ⟨[Event.resolve "adb",
          Event.run (ReflutterPatcher.monkeyCmd env.packageName
            env.deviceId), Event.prompt] ++
          (ReflutterPatcher.dump_dart_code env env.packageName
          (outputDirPath ++ "/" ++ env.packageName ++ "_dump.dart") true
          env.deviceId true).2, ?_, ?_⟩
        · simp [ReflutterPatcher.patch_and_install, ReflutterPatcher.patch,
            ReflutterPatcher.sign_patched_apk,
            ReflutterPatcher.auto_start_app, hreq, hvs, hTools, hRefRun,
            hRefProd, hDecode, hSign, hInstall, hDump, hcls, hm]
        · intro hmem
          rcases List.mem_append.mp hmem with hmem | hmem
          · cases env.deviceId <;>
              simp_all [ReflutterPatcher.monkeyCmd, ReflutterPatcher.adbBase]
          · exact hnd hmem

/-- C3, witness: the full workflow at a concrete environment whose dump
content is empty still returns the installed success result. -/
theorem C3_witness :
    (ReflutterPatcher.patch_and_install baseReflutterEnv "app.apk" "." false
        true false).result =
      .ok ⟨"com.example.app", "app.apk",
           ReflutterPatcher.releaseApkPath ReflutterPatcher.flutterTmp,
           "." ++ "/" ++ "com.example.app" ++ "-reflutter-signed.apk",
           true, none⟩ :=
  (C3_dump_failure_nonfatal baseReflutterEnv "app.apk" "." true false
    (fun _ => rfl) (fun _ => rfl) rfl rfl rfl
    ⟨ReflutterPatcher.decodedDir,
     "." ++ "/" ++ "com.example.app" ++ "-reflutter-signed.apk",
     true, true, none, true⟩
    rfl rfl
    (.wrap .dartDump "Failed to dump Dart code" (.err .dartDump .emptyDump))
    rfl).1

/-- C4: for a valid APK with both decompilers installed and both stages
requested, both tool invocations appear in the trace regardless of either
stage's outcome; the call errors (with the both-failed `DecompileError`)
exactly when both stages failed, and otherwise returns a result whose
`java_success` / `smali_success` flags record each stage's outcome
independently; requesting neither stage raises a `DecompileError` with no
tool invoked. -/
theorem C4_independent_stages :
    (∀ (env : APKDecompiler.DecompEnv) (apkPath outDir : String),
      APKDecompiler.validate env.apk apkPath = .ok () →
      env.jadxAvailable = true → env.apktoolAvailable = true →
      Event.run (APKDecompiler.jadxCmd (outDir ++ "/java") apkPath) ∈
          (APKDecompiler.decompile env apkPath outDir true true).events ∧
      Event.run (APKDecompiler.apktoolDCmd (outDir ++ "/smali") apkPath) ∈
          (APKDecompiler.decompile env apkPath outDir true true).events ∧
      ((env.jadxRuns && env.jadxProducesDir) = false →
        (env.apktoolRuns && env.apktoolProducesDir) = false →
        (APKDecompiler.decompile env apkPath outDir true true).result =
          .error (.err .decompile .bothDecompilersFailed)) ∧
      (((env.jadxRuns && env.jadxProducesDir) ||
          (env.apktoolRuns && env.apktoolProducesDir)) = true →
        (APKDecompiler.decompile env apkPath outDir true true).result =
          .ok ⟨apkPath, outDir,
            if (env.jadxRuns && env.jadxProducesDir) = true then
              some (outDir ++ "/java") else none,
            if (env.apktoolRuns && env.apktoolProducesDir) = true then
              some (outDir ++ "/smali") else none,
            env.jadxRuns && env.jadxProducesDir,
            env.apktoolRuns && env.apktoolProducesDir⟩)) ∧
    (∀ (env : APKDecompiler.DecompEnv) (apkPath outDir : String),
      APKDecompiler.validate env.apk apkPath = .ok () →
      APKDecompiler.decompile env apkPath outDir false false =
        ⟨.error (.err .decompile .atLeastOne), []⟩) := by
  constructor
  · intro env apkPath outDir hv hj ha
    cases hjr : env.jadxRuns <;> cases hjp : env.jadxProducesDir <;>
      cases har : env.apktoolRuns <;> cases hap : env.apktoolProducesDir <;>
        simp_all [APKDecompiler.decompile, APKDecompiler.decompile_java,
          APKDecompiler.decompile_smali, BErr.cls]
  · intro env apkPath outDir hv
    simp [APKDecompiler.decompile, hv]

/-- C4, witness: jadx fails while apktool succeeds — both invocations in
the trace, `java_success = false`, `smali_success = true`, no error. -/
theorem C4_witness :
    (Event.run (APKDecompiler.jadxCmd ("out" ++ "/java") "app.apk") ∈
        (APKDecompiler.decompile jadxFailsEnv "app.apk" "out" true
          true).events ∧
      Event.run (APKDecompiler.apktoolDCmd ("out" ++ "/smali") "app.apk") ∈
        (APKDecompiler.decompile jadxFailsEnv "app.apk" "out" true
          true).events ∧
      ((jadxFailsEnv.jadxRuns && jadxFailsEnv.jadxProducesDir) = false →
        (jadxFailsEnv.apktoolRuns &&
          jadxFailsEnv.apktoolProducesDir) = false →
        (APKDecompiler.decompile jadxFailsEnv "app.apk" "out" true
          true).result = .error (.err .decompile .bothDecompilersFailed)) ∧
      (((jadxFailsEnv.jadxRuns && jadxFailsEnv.jadxProducesDir) ||
          (jadxFailsEnv.apktoolRuns &&
            jadxFailsEnv.apktoolProducesDir)) = true →
        (APKDecompiler.decompile jadxFailsEnv "app.apk" "out" true
          true).result =
          .ok ⟨"app.apk", "out",
            if (jadxFailsEnv.jadxRuns &&
                jadxFailsEnv.jadxProducesDir) = true then
              some ("out" ++ "/java") else none,
            if (jadxFailsEnv.apktoolRuns &&
                jadxFailsEnv.apktoolProducesDir) = true then
              some ("out" ++ "/smali") else none,
            jadxFailsEnv.jadxRuns && jadxFailsEnv.jadxProducesDir,
            jadxFailsEnv.apktoolRuns &&
              jadxFailsEnv.apktoolProducesDir⟩)) ∧
    APKDecompiler.decompile jadxFailsEnv "app.apk" "out" false false =
      ⟨.error (.err .decompile .atLeastOne), []⟩ :=
  ⟨C4_independent_stages.1 jadxFailsEnv "app.apk" "out" rfl rfl rfl,
   C4_independent_stages.2 jadxFailsEnv "app.apk" "out" rfl⟩

/-- C5: for every artifact-producing stage — build, align, sign, keystore
generation, split-merge, reflutter instrumentation — a tool run that
returns success (`…Runs = true`) while the declared output artifact is
missing (`…Produces = false`) raises the stage's own error class carrying
the artifact-missing reason; it is never returned as success. -/
theorem C5_artifact_missing :
    (∀ (env : APKPatcher.PatchEnv) (dir out : String),
        env.apktoolAvailable = true → env.buildRuns = true →
        env.buildProduces = false →
        (APKPatcher.build env dir out).result =
          .error (.err .build (.artifactMissing out))) ∧
    (∀ (env : APKPatcher.PatchEnv) (i out : String),
        env.zipalignResolvable = true → env.alignRuns = true →
        env.alignProduces = false →
        (APKPatcher.align env i out).result =
          .error (.err .align (.artifactMissing out))) ∧
    (∀ (env : APKPatcher.PatchEnv) (i out ks a p q : String),
        env.apksignerResolvable = true → env.signRuns = true →
        env.signProduces = false →
        (APKPatcher.sign env i out ks a p q).result =
          .error (.err .sign (.artifactMissing out))) ∧
    (∀ (env : APKPatcher.PatchEnv),
        env.keytoolAvailable = true → env.keytoolRuns = true →
        env.keytoolProduces = false →
        (APKPatcher.generate_debug_keystore env false).result =
          .error (.err .sign
            (.artifactMissing APKPatcher.debugKeystorePath))) ∧
    (∀ (env : SplitAPKMerger.MergeEnv) (dir out : String),
        env.dirExists = true → env.isDir = true → env.apkFiles ≠ [] →
        env.apkeditorResolvable = true → env.mergeRuns = true →
        env.mergeProduces = false →
        (SplitAPKMerger.merge env dir out).result =
          .error (.err .merge (.artifactMissing out))) ∧
    (∀ (env : ReflutterPatcher.ReflutterEnv) (apk wd : String),
        env.whichTool "reflutter" = true → env.reflutterRuns = true →
        env.reflutterProduces = false →
        (ReflutterPatcher.patch env apk wd).result =
          .error (.wrap .reflutter "reflutter patching failed"
            (.err .reflutter
              (.artifactMissing (ReflutterPatcher.releaseApkPath wd))))) := by
  refine ⟨?_, ?_, ?_, ?_, ?_, ?_⟩ <;> intro env <;> intros <;>
    simp_all [APKPatcher.build, APKPatcher.align, APKPatcher.sign,
      APKPatcher.generate_debug_keystore, SplitAPKMerger.merge,
      SplitAPKMerger.validateDir, ReflutterPatcher.patch, List.isEmpty_iff]

/-- C5, witness: each of the six stages at a concrete environment where
the tool reports success but the artifact is missing. -/
theorem C5_witness :
    (APKPatcher.build { allOkPatchEnv with buildProduces := false } "d"
        "o").result = .error (.err .build (.artifactMissing "o")) ∧
    (APKPatcher.align { allOkPatchEnv with alignProduces := false } "i"
        "o").result = .error (.err .align (.artifactMissing "o")) ∧
    (APKPatcher.sign { allOkPatchEnv with signProduces := false } "i" "o"
        "k" "a" "p" "q").result =
      .error (.err .sign (.artifactMissing "o")) ∧
    (APKPatcher.generate_debug_keystore
        { allOkPatchEnv with keytoolProduces := false } false).result =
      .error (.err .sign (.artifactMissing APKPatcher.debugKeystorePath)) ∧
    (SplitAPKMerger.merge
        ⟨true, true, ["base.apk"], true, ["java"], true, false, false⟩ "d"
        "o").result = .error (.err .merge (.artifactMissing "o")) ∧
    (ReflutterPatcher.patch
        { baseReflutterEnv with reflutterProduces := false } "app.apk"
        "wd").result =
      .error (.wrap .reflutter "reflutter patching failed"
        (.err .reflutter
          (.artifactMissing (ReflutterPatcher.releaseApkPath "wd")))) :=
  ⟨C5_artifact_missing.1 _ "d" "o" rfl rfl rfl,
   C5_artifact_missing.2.1 _ "i" "o" rfl rfl rfl,
   C5_artifact_missing.2.2.1 _ "i" "o" "k" "a" "p" "q" rfl rfl rfl,
   C5_artifact_missing.2.2.2.1 _ rfl rfl rfl,
   C5_artifact_missing.2.2.2.2.1 _ "d" "o" rfl rfl (by decide) rfl rfl rfl,
   C5_artifact_missing.2.2.2.2.2 _ "app.apk" "wd" rfl rfl rfl⟩

/-- C6: debug-identity provisioning is idempotent — after one successful
`generate_debug_keystore` call, a second sequential call returns the same
fixed keystore path, performs no tool invocation (its only event is the
keytool availability resolution), and leaves the keystore state unchanged
(it returns early because the file exists). -/
theorem C6_keystore_idempotent (env : APKPatcher.PatchEnv) (ks : Bool)
    (p : String)
    (h : (APKPatcher.generate_debug_keystore env ks).result = .ok p) :
    (APKPatcher.generate_debug_keystore env
      (APKPatcher.generate_debug_keystore env ks).ksAfter).result = .ok p ∧
    p = APKPatcher.debugKeystorePath ∧
    (APKPatcher.generate_debug_keystore env
      (APKPatcher.generate_debug_keystore env ks).ksAfter).events =
      [.resolve "keytool"] ∧
    (APKPatcher.generate_debug_keystore env
      (APKPatcher.generate_debug_keystore env ks).ksAfter).ksAfter =
      (APKPatcher.generate_debug_keystore env ks).ksAfter := by
  cases hA : env.keytoolAvailable <;> cases ks <;>
    cases hR : env.keytoolRuns <;> cases hP : env.keytoolProduces <;>
      simp_all [APKPatcher.generate_debug_keystore]

/-- C6, witness: a first run that creates the keystore, then the second
run returning early with the same path and no tool run. -/
theorem C6_witness :
    (APKPatcher.generate_debug_keystore freshKeystoreEnv
      (APKPatcher.generate_debug_keystore freshKeystoreEnv
        false).ksAfter).result = .ok APKPatcher.debugKeystorePath ∧
    APKPatcher.debugKeystorePath = APKPatcher.debugKeystorePath ∧
    (APKPatcher.generate_debug_keystore freshKeystoreEnv
      (APKPatcher.generate_debug_keystore freshKeystoreEnv
        false).ksAfter).events = [.resolve "keytool"] ∧
    (APKPatcher.generate_debug_keystore freshKeystoreEnv
      (APKPatcher.generate_debug_keystore freshKeystoreEnv
        false).ksAfter).ksAfter =
      (APKPatcher.generate_debug_keystore freshKeystoreEnv false).ksAfter :=
  C6_keystore_idempotent freshKeystoreEnv false
    APKPatcher.debugKeystorePath rfl

/-- C7: a successful `patch` with `align = false` and `sign = false` writes
to the final output path exactly the bytes of the raw Build-stage artifact
(the built APK is copied verbatim), and the returned result points at that
output path. -/
theorem C7_skip_align_sign_copy (env : APKPatcher.PatchEnv)
    (dir out : String) (args : APKPatcher.PatchArgs)
    (r : APKPatcher.PatchResult) (hA : args.align = false)
    (hS : args.sign = false)
    (h : (APKPatcher.patch env dir out args).result = .ok r) :
    (APKPatcher.patch env dir out args).outputContent =
      some env.buildContent ∧ r.outputPath = out := by
  unfold APKPatcher.patch at h ⊢
  cases hval : APKPatcher.validate env dir with
  | error e => simp only [hval] at h; exact Except.noConfusion h
  | ok u =>
    simp only [hval] at h ⊢
    cases hbuild : APKPatcher.build env dir APKPatcher.builtApkPath with
    | mk bres bev =>
      simp only [hbuild] at h ⊢
      cases bres with
      | error e => exact Except.noConfusion h
      | ok bp =>
        simp only [hA, hS, Bool.false_eq_true, if_false] at h ⊢
        cases h
        exact ⟨by simp, rfl⟩

/-- C7, witness at a concrete environment. -/
theorem C7_witness :
    (APKPatcher.patch allOkPatchEnv "proj" "out.apk"
      rawCopyArgs).outputContent = some allOkPatchEnv.buildContent ∧
    (⟨"proj", "out.apk", false, false, none, false⟩ :
      APKPatcher.PatchResult).outputPath = "out.apk" :=
  C7_skip_align_sign_copy allOkPatchEnv "proj" "out.apk" rawCopyArgs
    ⟨"proj", "out.apk", false, false, none, false⟩ rfl rfl rfl

end Batuta
